import Mathlib

/-!
Shallow embedding of `src/streamlit.py`, a single-page Streamlit chat
application ("AI Personality Chatbot") that forwards user messages to the
Groq completion endpoint.  The embedding models:

* the `PERSONALITIES` table and `GROQ_MODELS` list (static data),
* the session state (`init_session_state`) as a `SessionState` record,
* `call_groq_api` as a pure function of the HTTP outcome (the outcome of the
  external POST being the only effectful input),
* `clear_chat`,
* the per-rerun logic of `main`: sidebar synchronisation (API key, model,
  personality with its clear-on-switch), the clear button, the missing-key
  early return, and a submitted chat prompt (append user message, assemble
  the windowed request, call the API, append the assistant reply).
-/

/-- Message roles used by the chat protocol. -/
inductive Role where
  | system
  | user
  | assistant
deriving DecidableEq, Repr

/-- A chat message: a role tag and text content, as the dicts
`{"role": ..., "content": ...}` built throughout `streamlit.py`. -/
structure Message where
  role : Role
  content : String
deriving DecidableEq, Repr

/-- A personality record from the `PERSONALITIES` dict: description,
system prompt and icon (the key of the dict is the personality name). -/
structure Personality where
  description : String
  system_prompt : String
  icon : String
deriving DecidableEq, Repr

/-- System prompt of the "Math Teacher" personality (lines 19-25). -/
def mathTeacherPrompt : String :=
  "You are a helpful Math Teacher. You ONLY answer questions related to mathematics, including:\n- Arithmetic, algebra, geometry, calculus, statistics\n- Math problem solving and explanations\n- Mathematical concepts and theories\n- Math homework help\n\nIf asked about anything outside of mathematics, politely decline and redirect the conversation back to math topics. Always be encouraging and educational in your responses."

/-- System prompt of the "Doctor" personality (lines 30-36). -/
def doctorPrompt : String :=
  "You are a helpful Medical Doctor. You ONLY answer questions related to health and medicine, including:\n- Symptoms and general health information\n- Medical conditions (general information only)\n- Wellness and prevention tips\n- When to seek medical care\n\nIMPORTANT: Always remind users that your advice is for informational purposes only and they should consult with qualified healthcare providers for medical decisions. If asked about anything outside of health and medicine, politely decline and redirect to medical topics."

/-- System prompt of the "Travel Guide" personality (lines 41-49). -/
def travelGuidePrompt : String :=
  "You are an expert Travel Guide. You ONLY answer questions related to travel, including:\n- Destination recommendations and information\n- Travel planning and itineraries\n- Transportation options\n- Accommodation advice\n- Local customs and cultures\n- Travel tips and safety\n\nIf asked about anything outside of travel, politely decline and redirect the conversation back to travel-related topics. Be enthusiastic and helpful about travel experiences."

/-- System prompt of the "Chef" personality (lines 54-62). -/
def chefPrompt : String :=
  "You are a professional Chef. You ONLY answer questions related to cooking and food, including:\n- Recipes and cooking instructions\n- Cooking techniques and methods\n- Ingredient substitutions and tips\n- Kitchen equipment advice\n- Food safety and storage\n- Cuisine types and food culture\n\nIf asked about anything outside of cooking and food, politely decline and redirect the conversation back to culinary topics. Be passionate and detailed about food and cooking."

/-- System prompt of the "Tech Support" personality (lines 67-75). -/
def techSupportPrompt : String :=
  "You are a Tech Support Specialist. You ONLY answer questions related to technology troubleshooting, including:\n- Computer and device problems\n- Software installation and configuration\n- Network connectivity issues\n- Hardware troubleshooting\n- Operating system help\n- Application support\n\nIf asked about anything outside of technical support, politely decline and redirect the conversation back to tech-related topics. Be clear, step-by-step, and patient in your technical explanations."

/-- The `PERSONALITIES` dict (lines 16-78), as an association list keyed by
personality name, in insertion order. -/
def PERSONALITIES : List (String × Personality) :=
  [ ("Math Teacher",
      { description := "A knowledgeable mathematics teacher who helps with math problems and concepts",
        system_prompt := mathTeacherPrompt,
        icon := "🧮" }),
    ("Doctor",
      { description := "A medical professional providing health information and guidance",
        system_prompt := doctorPrompt,
        icon := "🩺" }),
    ("Travel Guide",
      { description := "An experienced travel expert with tips and destination advice",
        system_prompt := travelGuidePrompt,
        icon := "✈️" }),
    ("Chef",
      { description := "A culinary expert specializing in cooking and recipes",
        system_prompt := chefPrompt,
        icon := "👨‍🍳" }),
    ("Tech Support",
      { description := "A technical support specialist for devices and software troubleshooting",
        system_prompt := techSupportPrompt,
        icon := "💻" }) ]

/-- The `GROQ_MODELS` list (lines 81-88). -/
def GROQ_MODELS : List String :=
  [ "llama-3.1-70b-versatile",
    "llama-3.1-8b-instant",
    "llama-3.2-90b-text-preview",
    "llama-3.2-11b-text-preview",
    "mixtral-8x7b-32768",
    "gemma2-9b-it" ]

/-- The session state variables set up by `init_session_state`
(lines 90-99): `st.session_state.messages`, `.groq_api_key`,
`.selected_personality`, `.selected_model`. -/
structure SessionState where
  messages : List Message
  groq_api_key : String
  selected_personality : String
  selected_model : String
deriving DecidableEq, Repr

/-- The defaults installed by `init_session_state` on a fresh session. -/
def initState : SessionState :=
  { messages := [],
    groq_api_key := "",
    selected_personality := "Math Teacher",
    selected_model := "llama-3.1-70b-versatile" }

/-- The JSON request body `data` built in `call_groq_api` (lines 108-114):
`{"model": model, "messages": messages, "temperature": 0.7,
"max_tokens": 1024, "stream": False}`. -/
structure ApiRequestData where
  model : String
  messages : List Message
  temperature : ℚ
  max_tokens : ℕ
  stream : Bool
deriving DecidableEq, Repr

/-- The full outbound HTTP request of `requests.post` (lines 103-122):
URL, the two headers, the JSON body and the timeout argument (seconds). -/
structure FullRequest where
  url : String
  authHeader : String
  contentType : String
  data : ApiRequestData
  timeout : ℕ
deriving DecidableEq, Repr

/-- Builds the request `requests.post` is invoked with in `call_groq_api`
(lines 103-122): a `Bearer` authorization header carrying the key, the fixed
URL and content type, the body with the fixed sampling parameters, and the
30-second timeout. -/
def buildRequest (messages : List Message) (api_key : String) (model : String) :
    FullRequest :=
  { url := "https://api.groq.com/openai/v1/chat/completions",
    authHeader := "Bearer " ++ api_key,
    contentType := "application/json",
    data :=
      { model := model,
        messages := messages,
        temperature := 7 / 10,
        max_tokens := 1024,
        stream := false },
    timeout := 30 }

/-- One choice of the completion response body: holds
`choice["message"]` whose `"content"` field is the reply text. -/
structure ChatChoice where
  message : Message
deriving DecidableEq, Repr

/-- The parsed completion response body: `result["choices"]`. -/
structure ChatResponseBody where
  choices : List ChatChoice
deriving DecidableEq, Repr

/-- Outcome of the external `requests.post` call: a response with an HTTP
status code and parsed body, a `requests.exceptions.Timeout`, or any other
exception (transport or parsing failure). -/
inductive HttpOutcome where
  | response (status : ℕ) (body : ChatResponseBody)
  | timeout
  | otherError (msg : String)
deriving DecidableEq, Repr

/-- `call_groq_api` (lines 101-136) as a function of the HTTP outcome.
On status 200 it returns `result["choices"][0]["message"]["content"]`; an
empty `choices` list makes that indexing raise inside the `try`, which the
generic `except Exception` branch turns into the generic fallback.  Any
other status returns the generic fallback; a timeout returns the timeout
fallback; any other exception returns the generic fallback. -/
def call_groq_api (messages : List Message) (api_key : String) (model : String)
    (outcome : HttpOutcome) : String :=
  match outcome with
  | .response status body =>
      if status = 200 then
        match body.choices.head? with
        | some c => c.message.content
        | none => "Sorry, I encountered an error processing your request."
      else
        "Sorry, I encountered an error processing your request."
  | .timeout => "Request timed out. Please try again."
  | .otherError _ => "Sorry, I encountered an error processing your request."

/-- `clear_chat` (lines 138-141): empties `st.session_state.messages`
(the subsequent `st.rerun()` aborts the current script run). -/
def clear_chat (s : SessionState) : SessionState :=
  { s with messages := [] }

/-- Python's `lst[-n:]`: the last `n` elements of the list (the whole list
when it is shorter than `n`). -/
def lastN {α : Type} (n : ℕ) (l : List α) : List α :=
  l.drop (l.length - n)

/-- The message list assembled for the API call (lines 256-261): one
synthesized system message carrying the active personality's system prompt,
followed by `st.session_state.messages[-20:]`, the last 20 transcript
entries. -/
def assemble_api_messages (transcript : List Message) (system_prompt : String) :
    List Message :=
  { role := Role.system, content := system_prompt } :: lastN 20 transcript

/-- One submitted chat prompt (lines 248-270): append the user message to
the transcript, look the active personality up in `PERSONALITIES`, assemble
the windowed request messages, call the API, and append the assistant reply.
Returns the updated session state together with the outbound request;
`none` models the `KeyError` were the selected personality not a key of
`PERSONALITIES` (the selectbox prevents this). -/
def doTurn (s : SessionState) (prompt : String) (outcome : HttpOutcome) :
    Option (SessionState × FullRequest) :=
  (PERSONALITIES.lookup s.selected_personality).map (fun pers =>
    let messages1 := s.messages ++ [{ role := Role.user, content := prompt }]
    let api_messages := assemble_api_messages messages1 pers.system_prompt
    let response := call_groq_api api_messages s.groq_api_key s.selected_model outcome
    ({ s with messages := messages1 ++ [{ role := Role.assistant, content := response }] },
     buildRequest api_messages s.groq_api_key s.selected_model))

/-- The personality selectbox handler (lines 186-196): when the chosen
personality differs from the stored one, store it and clear the messages. -/
def selectPersonality (s : SessionState) (choice : String) : SessionState :=
  if choice ≠ s.selected_personality then
    { s with selected_personality := choice, messages := [] }
  else s

/-- The widget inputs of one script rerun of `main`: the API key text
field, the model and personality selectboxes, whether the clear button was
clicked, the chat input (`none` when nothing was submitted), and the
outcome of the HTTP call should one be made. -/
structure Interaction where
  api_key_input : String
  model_choice : String
  personality_choice : String
  clear_clicked : Bool
  chat_prompt : Option String
  outcome : HttpOutcome

/-- Sidebar synchronisation of one rerun (lines 155-196): store the API key
input and the model choice, then run the personality selectbox handler. -/
def sidebarSync (s : SessionState) (i : Interaction) : SessionState :=
  selectPersonality
    { s with groq_api_key := i.api_key_input, selected_model := i.model_choice }
    i.personality_choice

/-- One full rerun of `main` (lines 143-283) as a state transition.  After
the sidebar sync: a clicked clear button runs `clear_chat` and `st.rerun()`
aborts the script; an empty API key returns before the chat input is ever
rendered (lines 217-227); otherwise a submitted non-empty prompt runs the
turn.  The second component is the outbound HTTP request, `none` when no
completion call was attempted; the outer `none` models the unreachable
`KeyError`. -/
def mainStep (s : SessionState) (i : Interaction) :
    Option (SessionState × Option FullRequest) :=
  let s1 := sidebarSync s i
  if i.clear_clicked then some (clear_chat s1, none)
  else if i.api_key_input = "" then some (s1, none)
  else
    match i.chat_prompt with
    | none => some (s1, none)
    | some p =>
        if p = "" then some (s1, none)
        else (doTurn s1 p i.outcome).map (fun x => (x.1, some x.2))

/-- The state a rerun ends in when the API key input is empty: the sidebar
sync runs, a clicked clear button additionally runs `clear_chat`, and the
early return at line 217 skips the chat input. -/
def noKeyResult (s : SessionState) (i : Interaction) : SessionState :=
  if i.clear_clicked then clear_chat (sidebarSync s i) else sidebarSync s i

/-- States reachable from a fresh session by any sequence of reruns. -/
inductive Reachable : SessionState → Prop
  | init : Reachable initState
  | step {s : SessionState} {i : Interaction} {s' : SessionState}
      {r : Option FullRequest} :
      Reachable s → mainStep s i = some (s', r) → Reachable s'

/-- A role sequence consisting of user/assistant pairs, in that order:
the shape of the stored transcript. -/
def altRoles : List Role → Bool
  | [] => true
  | Role.user :: Role.assistant :: rest => altRoles rest
  | _ => false

/-- The stored transcript alternates: a user entry followed by an assistant
entry, repeated. -/
def rolesAlternate (ms : List Message) : Bool :=
  altRoles (ms.map Message.role)

/-! ### Helper lemmas -/

theorem altRoles_append_pair :
    ∀ rs : List Role, altRoles (rs ++ [Role.user, Role.assistant]) = altRoles rs
  | [] => rfl
  | [r] => by cases r <;> rfl
  | r1 :: r2 :: rest => by
      cases r1 <;> cases r2 <;>
        first
          | rfl
          | exact altRoles_append_pair rest

theorem rolesAlternate_append_pair (ms : List Message) (p c : String) :
    rolesAlternate (ms ++ [{ role := Role.user, content := p },
                           { role := Role.assistant, content := c }])
      = rolesAlternate ms := by
  unfold rolesAlternate
  rw [List.map_append]
  exact altRoles_append_pair (ms.map Message.role)

theorem lastN_append_one {α : Type} (n : ℕ) (hn : 1 ≤ n) (l : List α) (x : α) :
    lastN n (l ++ [x]) = l.drop (l.length + 1 - n) ++ [x] := by
  unfold lastN
  rw [List.length_append]
  simp only [List.length_cons, List.length_nil, Nat.zero_add]
  rw [List.drop_append_of_le_length (by omega)]

theorem call_groq_api_non200 (msgs : List Message) (k m : String) (status : ℕ)
    (body : ChatResponseBody) (hst : status ≠ 200) :
    call_groq_api msgs k m (HttpOutcome.response status body) =
      "Sorry, I encountered an error processing your request." := by
  simp only [call_groq_api]
  rw [if_neg hst]

theorem doTurn_eq_some {s : SessionState} {p : String} {o : HttpOutcome}
    {s' : SessionState} {req : FullRequest}
    (h : doTurn s p o = some (s', req)) :
    ∃ pers, PERSONALITIES.lookup s.selected_personality = some pers ∧
      s' = { s with messages :=
              (s.messages ++ [{ role := Role.user, content := p }]) ++
              [{ role := Role.assistant,
                 content := call_groq_api
                   (assemble_api_messages
                     (s.messages ++ [{ role := Role.user, content := p }])
                     pers.system_prompt)
                   s.groq_api_key s.selected_model o }] } ∧
      req = buildRequest
              (assemble_api_messages
                (s.messages ++ [{ role := Role.user, content := p }])
                pers.system_prompt)
              s.groq_api_key s.selected_model := by
  unfold doTurn at h
  rw [Option.map_eq_some'] at h
  obtain ⟨pers, hl, hf⟩ := h
  refine ⟨pers, hl, ?_, ?_⟩
  · exact (congrArg Prod.fst hf).symm
  · exact (congrArg Prod.snd hf).symm

theorem buildRequest_data_messages (msgs : List Message) (k m : String) :
    (buildRequest msgs k m).data.messages = msgs := rfl

theorem sidebarSync_messages (s : SessionState) (i : Interaction) :
    (sidebarSync s i).messages = s.messages ∨ (sidebarSync s i).messages = [] := by
  unfold sidebarSync selectPersonality
  split
  · right; rfl
  · left; rfl

theorem mainStep_messages {s : SessionState} {i : Interaction}
    {s' : SessionState} {r : Option FullRequest}
    (h : mainStep s i = some (s', r)) :
    s'.messages = s.messages ∨ s'.messages = [] ∨
    (∃ p c, s'.messages = s.messages ++
        [{ role := Role.user, content := p },
         { role := Role.assistant, content := c }]) ∨
    (∃ p c, s'.messages =
        [{ role := Role.user, content := p },
         { role := Role.assistant, content := c }]) := by
  simp only [mainStep] at h
  split at h
  · rw [Option.some.injEq, Prod.mk.injEq] at h
    obtain ⟨h1, h2⟩ := h
    subst h1
    right; left; rfl
  · split at h
    · rw [Option.some.injEq, Prod.mk.injEq] at h
      obtain ⟨h1, h2⟩ := h
      subst h1
      rcases sidebarSync_messages s i with hm | hm
      · left; exact hm
      · right; left; exact hm
    · split at h
      · rw [Option.some.injEq, Prod.mk.injEq] at h
        obtain ⟨h1, h2⟩ := h
        subst h1
        rcases sidebarSync_messages s i with hm | hm
        · left; exact hm
        · right; left; exact hm
      · rename_i p hp
        split at h
        · rw [Option.some.injEq, Prod.mk.injEq] at h
          obtain ⟨h1, h2⟩ := h
          subst h1
          rcases sidebarSync_messages s i with hm | hm
          · left; exact hm
          · right; left; exact hm
        · rw [Option.map_eq_some'] at h
          obtain ⟨⟨t, q⟩, hd, hf⟩ := h
          rw [Prod.mk.injEq] at hf
          obtain ⟨hf1, hf2⟩ := hf
          obtain ⟨pers, hl, hs2, hq⟩ := doTurn_eq_some hd
          subst hf1
          have hmsg : t.messages = (sidebarSync s i).messages ++
              [{ role := Role.user, content := p },
               { role := Role.assistant,
                 content := call_groq_api
                   (assemble_api_messages
                     ((sidebarSync s i).messages ++ [{ role := Role.user, content := p }])
                     pers.system_prompt)
                   (sidebarSync s i).groq_api_key (sidebarSync s i).selected_model
                   i.outcome }] := by
            simp only [hs2, List.append_assoc, List.cons_append, List.nil_append]
          rcases sidebarSync_messages s i with hm | hm
          · right; right; left
            rw [hm] at hmsg
            exact ⟨p, _, hmsg⟩
          · right; right; right
            rw [hm] at hmsg
            rw [List.nil_append] at hmsg
            exact ⟨p, _, hmsg⟩

theorem reachable_rolesAlternate {s : SessionState} (h : Reachable s) :
    rolesAlternate s.messages = true := by
  induction h with
  | init => rfl
  | step hr hm ih =>
      rcases mainStep_messages hm with h1 | h1 | ⟨p, c, h1⟩ | ⟨p, c, h1⟩
      · rw [h1]; exact ih
      · rw [h1]; rfl
      · rw [h1, rolesAlternate_append_pair]; exact ih
      · rw [h1]; rfl

/-! ### Claim theorems -/

/-- C1: for every transcript (after the new user message has been appended)
and every personality, the assembled request list has length min(N,20)+1,
its element 0 is the synthesized system message carrying the personality's
system prompt, and its remaining elements are exactly the last min(N,20)
transcript entries in their original order. -/
theorem assembled_window_shape (ts : List Message) (P : Personality) :
    (assemble_api_messages ts P.system_prompt).length = min ts.length 20 + 1 ∧
    assemble_api_messages ts P.system_prompt =
      { role := Role.system, content := P.system_prompt }
        :: ts.drop (ts.length - min ts.length 20) := by
  constructor
  · simp only [assemble_api_messages, lastN, List.length_cons, List.length_drop]
    omega
  · have h : ts.length - 20 = ts.length - min ts.length 20 := by omega
    rw [assemble_api_messages, lastN, h]

/-- C3: selecting a personality different from the currently selected one
leaves the transcript empty immediately after the switch, whatever its
prior length. -/
theorem personality_switch_clears (s : SessionState) (choice : String)
    (h : choice ≠ s.selected_personality) :
    (selectPersonality s choice).messages = [] := by
  unfold selectPersonality
  rw [if_pos h]

/-- Witness for C3: switching a non-empty Math Teacher session to Chef. -/
theorem personality_switch_clears_witness :
    (selectPersonality
        { initState with messages :=
            [{ role := Role.user, content := "what is 2+2" },
             { role := Role.assistant, content := "4" }] }
        "Chef").messages = [] :=
  personality_switch_clears
    { initState with messages :=
        [{ role := Role.user, content := "what is 2+2" },
         { role := Role.assistant, content := "4" }] }
    "Chef" (by decide)

/-- C6: the clear-chat operation empties the transcript and leaves the
selected personality and the selected model unchanged. -/
theorem clear_chat_empties_and_frames (s : SessionState) :
    (clear_chat s).messages = [] ∧
    (clear_chat s).selected_personality = s.selected_personality ∧
    (clear_chat s).selected_model = s.selected_model :=
  ⟨rfl, rfl, rfl⟩

/-- C8: every completion request carries temperature 0.7, max_tokens 1024,
stream = false and a 30-second timeout, and on HTTP 200 the reply text is
the first choice's message content of the response body. -/
theorem fixed_params_and_success_extraction
    (msgs : List Message) (k m : String) (body : ChatResponseBody)
    (c : ChatChoice) (rest : List ChatChoice)
    (hb : body.choices = c :: rest) :
    (buildRequest msgs k m).data.temperature = 7 / 10 ∧
    (buildRequest msgs k m).data.max_tokens = 1024 ∧
    (buildRequest msgs k m).data.stream = false ∧
    (buildRequest msgs k m).timeout = 30 ∧
    call_groq_api msgs k m (HttpOutcome.response 200 body) = c.message.content := by
  refine ⟨rfl, rfl, rfl, rfl, ?_⟩
  simp [call_groq_api, hb]

/-- Witness for C8: a 200 response with one choice whose content is
extracted as the reply. -/
theorem fixed_params_and_success_extraction_witness :
    (buildRequest [] "key" "gemma2-9b-it").data.temperature = 7 / 10 ∧
    (buildRequest [] "key" "gemma2-9b-it").data.max_tokens = 1024 ∧
    (buildRequest [] "key" "gemma2-9b-it").data.stream = false ∧
    (buildRequest [] "key" "gemma2-9b-it").timeout = 30 ∧
    call_groq_api [] "key" "gemma2-9b-it"
      (HttpOutcome.response 200
        { choices := [{ message := { role := Role.assistant, content := "Paris" } }] })
      = ({ message := { role := Role.assistant, content := "Paris" } } : ChatChoice).message.content :=
  fixed_params_and_success_extraction [] "key" "gemma2-9b-it"
    { choices := [{ message := { role := Role.assistant, content := "Paris" } }] }
    { message := { role := Role.assistant, content := "Paris" } } [] rfl

/-- C2: every completed user turn appends exactly one user message followed
by one assistant message to the transcript, whatever the HTTP outcome, and
in every reachable session the transcript roles alternate user/assistant
(so an assistant entry always follows a user entry). -/
theorem turn_appends_pair_and_alternation
    (s : SessionState) (p : String) (o : HttpOutcome)
    (s' : SessionState) (req : FullRequest)
    (hr : Reachable s) (h : doTurn s p o = some (s', req)) :
    (∃ c, s'.messages = s.messages ++
        [{ role := Role.user, content := p },
         { role := Role.assistant, content := c }]) ∧
    rolesAlternate s.messages = true ∧
    rolesAlternate s'.messages = true := by
  obtain ⟨pers, hl, hs2, hq⟩ := doTurn_eq_some h
  have halt := reachable_rolesAlternate hr
  have hmsg : s'.messages = s.messages ++
      [{ role := Role.user, content := p },
       { role := Role.assistant,
         content := call_groq_api
           (assemble_api_messages (s.messages ++ [{ role := Role.user, content := p }])
             pers.system_prompt)
           s.groq_api_key s.selected_model o }] := by
    simp only [hs2, List.append_assoc, List.cons_append, List.nil_append]
  refine ⟨⟨_, hmsg⟩, halt, ?_⟩
  rw [hmsg, rolesAlternate_append_pair]
  exact halt


/-- Witness for C2: the first turn of a fresh session, with the HTTP call
timing out. -/
theorem turn_appends_pair_and_alternation_witness :
    (∃ c, ({ messages := [{ role := Role.user, content := "hi" },
                          { role := Role.assistant,
                            content := "Request timed out. Please try again." }],
             groq_api_key := "",
             selected_personality := "Math Teacher",
             selected_model := "llama-3.1-70b-versatile" } : SessionState).messages
      = initState.messages ++ [{ role := Role.user, content := "hi" },
                               { role := Role.assistant, content := c }]) ∧
    rolesAlternate initState.messages = true ∧
    rolesAlternate ({ messages := [{ role := Role.user, content := "hi" },
                                   { role := Role.assistant,
                                     content := "Request timed out. Please try again." }],
                      groq_api_key := "",
                      selected_personality := "Math Teacher",
                      selected_model := "llama-3.1-70b-versatile" } : SessionState).messages
      = true :=
  turn_appends_pair_and_alternation initState "hi" HttpOutcome.timeout
    { messages := [{ role := Role.user, content := "hi" },
                   { role := Role.assistant,
                     content := "Request timed out. Please try again." }],
      groq_api_key := "",
      selected_personality := "Math Teacher",
      selected_model := "llama-3.1-70b-versatile" }
    (buildRequest
      (assemble_api_messages [{ role := Role.user, content := "hi" }] mathTeacherPrompt)
      "" "llama-3.1-70b-versatile")
    Reachable.init (by rfl)

/-- C4: a non-200 HTTP status makes `call_groq_api` return the fixed
generic fallback string and the turn still appends exactly one assistant
message carrying that fallback text. -/
theorem non200_generic_fallback
    (s : SessionState) (p : String) (status : ℕ) (body : ChatResponseBody)
    (s' : SessionState) (req : FullRequest)
    (hst : status ≠ 200)
    (h : doTurn s p (HttpOutcome.response status body) = some (s', req)) :
    call_groq_api req.data.messages s.groq_api_key s.selected_model
        (HttpOutcome.response status body)
      = "Sorry, I encountered an error processing your request." ∧
    s'.messages = (s.messages ++ [{ role := Role.user, content := p }]) ++
      [{ role := Role.assistant,
         content := "Sorry, I encountered an error processing your request." }] := by
  refine ⟨call_groq_api_non200 _ _ _ _ _ hst, ?_⟩
  obtain ⟨pers, hl, hs2, hq⟩ := doTurn_eq_some h
  rw [hs2, call_groq_api_non200 _ _ _ _ _ hst]

/-- Witness for C4: a 500 response on the first turn of a fresh session. -/
theorem non200_generic_fallback_witness :
    call_groq_api
        (buildRequest
          (assemble_api_messages [{ role := Role.user, content := "hi" }] mathTeacherPrompt)
          "" "llama-3.1-70b-versatile").data.messages
        initState.groq_api_key initState.selected_model
        (HttpOutcome.response 500 { choices := [] })
      = "Sorry, I encountered an error processing your request." ∧
    ({ messages := [{ role := Role.user, content := "hi" },
                    { role := Role.assistant,
                      content := "Sorry, I encountered an error processing your request." }],
       groq_api_key := "",
       selected_personality := "Math Teacher",
       selected_model := "llama-3.1-70b-versatile" } : SessionState).messages
      = (initState.messages ++ [{ role := Role.user, content := "hi" }]) ++
        [{ role := Role.assistant,
           content := "Sorry, I encountered an error processing your request." }] :=
  non200_generic_fallback initState "hi" 500 { choices := [] }
    { messages := [{ role := Role.user, content := "hi" },
                   { role := Role.assistant,
                     content := "Sorry, I encountered an error processing your request." }],
      groq_api_key := "",
      selected_personality := "Math Teacher",
      selected_model := "llama-3.1-70b-versatile" }
    (buildRequest
      (assemble_api_messages [{ role := Role.user, content := "hi" }] mathTeacherPrompt)
      "" "llama-3.1-70b-versatile")
    (by decide) (by rfl)

/-- C5: a timeout makes `call_groq_api` return the fixed timeout fallback
string, which is distinct from the generic fallback returned for the other
failure kinds (here: any other exception), and the turn still appends
exactly one assistant message carrying it. -/
theorem timeout_distinct_fallback
    (s : SessionState) (p e : String)
    (s' : SessionState) (req : FullRequest)
    (h : doTurn s p HttpOutcome.timeout = some (s', req)) :
    call_groq_api req.data.messages s.groq_api_key s.selected_model HttpOutcome.timeout
      = "Request timed out. Please try again." ∧
    "Request timed out. Please try again."
      ≠ "Sorry, I encountered an error processing your request." ∧
    call_groq_api req.data.messages s.groq_api_key s.selected_model
        (HttpOutcome.otherError e)
      = "Sorry, I encountered an error processing your request." ∧
    s'.messages = (s.messages ++ [{ role := Role.user, content := p }]) ++
      [{ role := Role.assistant, content := "Request timed out. Please try again." }] := by
  refine ⟨rfl, by decide, rfl, ?_⟩
  obtain ⟨pers, hl, hs2, hq⟩ := doTurn_eq_some h
  rw [hs2]
  rfl

/-- Witness for C5: a timed-out first turn of a fresh session. -/
theorem timeout_distinct_fallback_witness :
    call_groq_api
        (buildRequest
          (assemble_api_messages [{ role := Role.user, content := "hi" }] mathTeacherPrompt)
          "" "llama-3.1-70b-versatile").data.messages
        initState.groq_api_key initState.selected_model HttpOutcome.timeout
      = "Request timed out. Please try again." ∧
    "Request timed out. Please try again."
      ≠ "Sorry, I encountered an error processing your request." ∧
    call_groq_api
        (buildRequest
          (assemble_api_messages [{ role := Role.user, content := "hi" }] mathTeacherPrompt)
          "" "llama-3.1-70b-versatile").data.messages
        initState.groq_api_key initState.selected_model (HttpOutcome.otherError "boom")
      = "Sorry, I encountered an error processing your request." ∧
    ({ messages := [{ role := Role.user, content := "hi" },
                    { role := Role.assistant,
                      content := "Request timed out. Please try again." }],
       groq_api_key := "",
       selected_personality := "Math Teacher",
       selected_model := "llama-3.1-70b-versatile" } : SessionState).messages
      = (initState.messages ++ [{ role := Role.user, content := "hi" }]) ++
        [{ role := Role.assistant, content := "Request timed out. Please try again." }] :=
  timeout_distinct_fallback initState "hi" "boom"
    { messages := [{ role := Role.user, content := "hi" },
                   { role := Role.assistant,
                     content := "Request timed out. Please try again." }],
      groq_api_key := "",
      selected_personality := "Math Teacher",
      selected_model := "llama-3.1-70b-versatile" }
    (buildRequest
      (assemble_api_messages [{ role := Role.user, content := "hi" }] mathTeacherPrompt)
      "" "llama-3.1-70b-versatile")
    (by rfl)

/-- C7: with an empty API key input, the rerun issues no completion request
(the chat input is never rendered, so no turn can run) and the transcript
cannot grow: it is either unchanged or cleared. -/
theorem empty_key_blocks_chat (s : SessionState) (i : Interaction)
    (h : i.api_key_input = "") :
    mainStep s i = some (noKeyResult s i, none) ∧
    ((noKeyResult s i).messages = s.messages ∨ (noKeyResult s i).messages = []) := by
  constructor
  · simp only [mainStep, noKeyResult]
    by_cases hc : i.clear_clicked
    · rw [if_pos hc, if_pos hc]
    · rw [if_neg hc, if_neg hc, if_pos h]
  · unfold noKeyResult
    by_cases hc : i.clear_clicked
    · rw [if_pos hc]
      right; rfl
    · rw [if_neg hc]
      exact sidebarSync_messages s i

/-- Witness for C7: an empty-key rerun with a prompt pending on a session
that already holds one exchange: no request is issued and the transcript
is unchanged. -/
theorem empty_key_blocks_chat_witness :
    mainStep
        { messages := [{ role := Role.user, content := "what is 2+2" },
                       { role := Role.assistant, content := "4" }],
          groq_api_key := "",
          selected_personality := "Math Teacher",
          selected_model := "llama-3.1-70b-versatile" }
        { api_key_input := "",
          model_choice := "llama-3.1-70b-versatile",
          personality_choice := "Math Teacher",
          clear_clicked := false,
          chat_prompt := some "and 3+3?",
          outcome := HttpOutcome.timeout }
      = some (noKeyResult
          { messages := [{ role := Role.user, content := "what is 2+2" },
                         { role := Role.assistant, content := "4" }],
            groq_api_key := "",
            selected_personality := "Math Teacher",
            selected_model := "llama-3.1-70b-versatile" }
          { api_key_input := "",
            model_choice := "llama-3.1-70b-versatile",
            personality_choice := "Math Teacher",
            clear_clicked := false,
            chat_prompt := some "and 3+3?",
            outcome := HttpOutcome.timeout }, none) ∧
    ((noKeyResult
          { messages := [{ role := Role.user, content := "what is 2+2" },
                         { role := Role.assistant, content := "4" }],
            groq_api_key := "",
            selected_personality := "Math Teacher",
            selected_model := "llama-3.1-70b-versatile" }
          { api_key_input := "",
            model_choice := "llama-3.1-70b-versatile",
            personality_choice := "Math Teacher",
            clear_clicked := false,
            chat_prompt := some "and 3+3?",
            outcome := HttpOutcome.timeout }).messages
        = [{ role := Role.user, content := "what is 2+2" },
           { role := Role.assistant, content := "4" }] ∨
     (noKeyResult
          { messages := [{ role := Role.user, content := "what is 2+2" },
                         { role := Role.assistant, content := "4" }],
            groq_api_key := "",
            selected_personality := "Math Teacher",
            selected_model := "llama-3.1-70b-versatile" }
          { api_key_input := "",
            model_choice := "llama-3.1-70b-versatile",
            personality_choice := "Math Teacher",
            clear_clicked := false,
            chat_prompt := some "and 3+3?",
            outcome := HttpOutcome.timeout }).messages = []) :=
  empty_key_blocks_chat
    { messages := [{ role := Role.user, content := "what is 2+2" },
                   { role := Role.assistant, content := "4" }],
      groq_api_key := "",
      selected_personality := "Math Teacher",
      selected_model := "llama-3.1-70b-versatile" }
    { api_key_input := "",
      model_choice := "llama-3.1-70b-versatile",
      personality_choice := "Math Teacher",
      clear_clicked := false,
      chat_prompt := some "and 3+3?",
      outcome := HttpOutcome.timeout }
    rfl

/-- C9: the last element of the assembled request message list is the
newly appended user message: the 20-entry window is taken after the append
and 20 ≥ 1, so the window can never drop the current question. -/
theorem window_keeps_current_question
    (s : SessionState) (p : String) (o : HttpOutcome)
    (s' : SessionState) (req : FullRequest)
    (h : doTurn s p o = some (s', req)) :
    req.data.messages.getLast? = some { role := Role.user, content := p } := by
  obtain ⟨pers, hl, hs2, hq⟩ := doTurn_eq_some h
  rw [hq, buildRequest_data_messages, assemble_api_messages,
      lastN_append_one 20 (by omega), ← List.cons_append, List.getLast?_concat]

/-- Witness for C9: the first turn of a fresh session. -/
theorem window_keeps_current_question_witness :
    (buildRequest
        (assemble_api_messages [{ role := Role.user, content := "hi" }] mathTeacherPrompt)
        "" "llama-3.1-70b-versatile").data.messages.getLast?
      = some { role := Role.user, content := "hi" } :=
  window_keeps_current_question initState "hi" HttpOutcome.timeout
    { messages := [{ role := Role.user, content := "hi" },
                   { role := Role.assistant,
                     content := "Request timed out. Please try again." }],
      groq_api_key := "",
      selected_personality := "Math Teacher",
      selected_model := "llama-3.1-70b-versatile" }
    (buildRequest
      (assemble_api_messages [{ role := Role.user, content := "hi" }] mathTeacherPrompt)
      "" "llama-3.1-70b-versatile")
    (by rfl)

/-- C10: the assembled message list in the request body, and the stored
transcript, are independent of the API key: two turns differing only in
the key produce identical request data and identical transcripts, the key
reaching only the Authorization header. -/
theorem request_key_independent
    (s : SessionState) (k1 k2 p : String) (o : HttpOutcome)
    (t1 t2 : SessionState) (r1 r2 : FullRequest)
    (h1 : doTurn { s with groq_api_key := k1 } p o = some (t1, r1))
    (h2 : doTurn { s with groq_api_key := k2 } p o = some (t2, r2)) :
    r1.data = r2.data ∧ t1.messages = t2.messages ∧
    r1.url = r2.url ∧ r1.contentType = r2.contentType ∧ r1.timeout = r2.timeout ∧
    r1.authHeader = "Bearer " ++ k1 ∧ r2.authHeader = "Bearer " ++ k2 := by
  obtain ⟨pa, hla, hsa, hqa⟩ := doTurn_eq_some h1
  obtain ⟨pb, hlb, hsb, hqb⟩ := doTurn_eq_some h2
  have hla2 : PERSONALITIES.lookup s.selected_personality = some pa := hla
  have hlb2 : PERSONALITIES.lookup s.selected_personality = some pb := hlb
  have hpp : pa = pb := Option.some.inj (hla2.symm.trans hlb2)
  subst hpp
  subst hsa
  subst hsb
  subst hqa
  subst hqb
  exact ⟨rfl, rfl, rfl, rfl, rfl, rfl, rfl⟩

/-- Witness for C10: the same first turn under two different keys. -/
theorem request_key_independent_witness :
    (buildRequest
        (assemble_api_messages [{ role := Role.user, content := "hi" }] mathTeacherPrompt)
        "alpha" "llama-3.1-70b-versatile").data
      = (buildRequest
        (assemble_api_messages [{ role := Role.user, content := "hi" }] mathTeacherPrompt)
        "beta" "llama-3.1-70b-versatile").data ∧
    ({ messages := [{ role := Role.user, content := "hi" },
                    { role := Role.assistant,
                      content := "Request timed out. Please try again." }],
       groq_api_key := "alpha",
       selected_personality := "Math Teacher",
       selected_model := "llama-3.1-70b-versatile" } : SessionState).messages
      = ({ messages := [{ role := Role.user, content := "hi" },
                        { role := Role.assistant,
                          content := "Request timed out. Please try again." }],
           groq_api_key := "beta",
           selected_personality := "Math Teacher",
           selected_model := "llama-3.1-70b-versatile" } : SessionState).messages ∧
    (buildRequest
        (assemble_api_messages [{ role := Role.user, content := "hi" }] mathTeacherPrompt)
        "alpha" "llama-3.1-70b-versatile").url
      = (buildRequest
        (assemble_api_messages [{ role := Role.user, content := "hi" }] mathTeacherPrompt)
        "beta" "llama-3.1-70b-versatile").url ∧
    (buildRequest
        (assemble_api_messages [{ role := Role.user, content := "hi" }] mathTeacherPrompt)
        "alpha" "llama-3.1-70b-versatile").contentType
      = (buildRequest
        (assemble_api_messages [{ role := Role.user, content := "hi" }] mathTeacherPrompt)
        "beta" "llama-3.1-70b-versatile").contentType ∧
    (buildRequest
        (assemble_api_messages [{ role := Role.user, content := "hi" }] mathTeacherPrompt)
        "alpha" "llama-3.1-70b-versatile").timeout
      = (buildRequest
        (assemble_api_messages [{ role := Role.user, content := "hi" }] mathTeacherPrompt)
        "beta" "llama-3.1-70b-versatile").timeout ∧
    (buildRequest
        (assemble_api_messages [{ role := Role.user, content := "hi" }] mathTeacherPrompt)
        "alpha" "llama-3.1-70b-versatile").authHeader = "Bearer " ++ "alpha" ∧
    (buildRequest
        (assemble_api_messages [{ role := Role.user, content := "hi" }] mathTeacherPrompt)
        "beta" "llama-3.1-70b-versatile").authHeader = "Bearer " ++ "beta" :=
  request_key_independent initState "alpha" "beta" "hi" HttpOutcome.timeout
    { messages := [{ role := Role.user, content := "hi" },
                   { role := Role.assistant,
                     content := "Request timed out. Please try again." }],
      groq_api_key := "alpha",
      selected_personality := "Math Teacher",
      selected_model := "llama-3.1-70b-versatile" }
    { messages := [{ role := Role.user, content := "hi" },
                   { role := Role.assistant,
                     content := "Request timed out. Please try again." }],
      groq_api_key := "beta",
      selected_personality := "Math Teacher",
      selected_model := "llama-3.1-70b-versatile" }
    (buildRequest
      (assemble_api_messages [{ role := Role.user, content := "hi" }] mathTeacherPrompt)
      "alpha" "llama-3.1-70b-versatile")
    (buildRequest
      (assemble_api_messages [{ role := Role.user, content := "hi" }] mathTeacherPrompt)
      "beta" "llama-3.1-70b-versatile")
    (by rfl) (by rfl)
